import Mathlib

/-!
Verification development for the KryptoBot pipeline (pool detector → token
filter → buy executor → sell manager).

The JavaScript services are shallowly embedded: every function is translated
to a pure Lean function, with the external world (RPC calls, random draws,
transaction confirmation) passed in as explicit oracle values, and effects
(Redis writes, transaction submissions, publishes) returned as explicit
state.  Monetary quantities and prices are modelled with exact rationals
(the idealisation of JS numbers; none of the claims here depends on
floating-point rounding).  Redis stores strings; numeric fields are
modelled as their idealised values (decimal serialisation round-trips),
while the boolean `isDryRun` field keeps its concrete string encoding
("true" / "false"), which is the encoding the code relies on.
-/

namespace KryptoBot

/-- Generic result of an external call: JavaScript functions that either
return a value or throw an error which the caller catches. -/
inductive ExtResult (α : Type) where
  | ok (value : α)
  | err (message : String)
deriving Repr, DecidableEq

/-- True when an external call threw. -/
def ExtResult.isErr {α : Type} : ExtResult α → Bool
  | .ok _ => false
  | .err _ => true

/-! ## Keyed stores

Both the durable Redis hash store (`positions:<baseMint>` keys) and the
in-memory `activePositions` JavaScript `Map` are keyed collections with
insert-or-replace (`hset` / `Map.set`), lookup and delete.  We model both
as association lists preserving insertion order, which is the iteration
order of a JS `Map` and the order of `KEYS` enumeration we assume. -/

/-- `Map.set` / `hset`: replace in place when the key exists, else append. -/
def setKey {α : Type} (m : List (String × α)) (k : String) (v : α) :
    List (String × α) :=
  if m.any (fun p => p.1 == k) then
    m.map (fun p => if p.1 == k then (k, v) else p)
  else
    m ++ [(k, v)]

/-- `Map.get` / lookup of a key. -/
def getKey {α : Type} (m : List (String × α)) (k : String) : Option α :=
  (m.find? (fun p => p.1 == k)).map (fun p => p.2)

/-- `Map.delete` / `del`: remove the entry with the given key. -/
def delKey {α : Type} (m : List (String × α)) (k : String) : List (String × α) :=
  m.filter (fun p => !(p.1 == k))

/-! ## Shared constants (shared/constants.js) -/

/-- `SOLANA_ADDRESSES.SOL_MINT` as a string. -/
def SOL_MINT : String := "So11111111111111111111111111111111111111112"

/-- `KNOWN_TOKENS`: known safe tokens mapped to their symbols. -/
def KNOWN_TOKENS : List (String × String) :=
  [("So11111111111111111111111111111111111111112", "SOL"),
   ("EPjFWdd5AufqSSqeM2qN1xzybapC8G4wEGGkZwyTDt1v", "USDC"),
   ("7dHbWXmci3dT8UFYWYZweBLXgycu7Y3iL6trKn1Y7ARj", "stSOL"),
   ("mSoLzYCxHdYgdzU16g5QSh3i5K3z3KZK7ytfqcJm7So", "mSOL")]

/-- `KNOWN_TOKENS[mint]` lookup (JS object property access). -/
def knownTokenName (mintAddress : String) : Option String :=
  getKey KNOWN_TOKENS mintAddress

/-- `LAMPORTS_PER_SOL`. -/
def LAMPORTS_PER_SOL : ℚ := 1000000000

/-- The character class of `REGEX_PATTERNS.SOLANA_ADDRESS`
(`^[1-9A-HJ-NP-Za-km-z]{32,44}$`), i.e. the base58 alphabet. -/
def BASE58_ALPHABET : List Char :=
  "123456789ABCDEFGHJKLMNPQRSTUVWXYZabcdefghijkmnopqrstuvwxyz".toList

/-- `REGEX_PATTERNS.SOLANA_ADDRESS.test(address)`: 32 to 44 base58
characters. -/
def matchesSolanaAddressPattern (address : String) : Bool :=
  decide (32 ≤ address.length) && decide (address.length ≤ 44) &&
    address.toList.all (fun c => BASE58_ALPHABET.contains c)

/-- Environment-style configuration surface (shared/config.js and
shared/constants.js performance settings), restricted to the options the
embedded functions read. -/
structure Config where
  DRY_RUN : Bool
  DRY_RUN_SUCCESS_RATE : ℚ
  DRY_RUN_CONFIRMATION_MS : ℚ
  DRY_RUN_PRICE_VOLATILITY : ℚ
  BUY_AMOUNT_SOL : ℚ
  SLIPPAGE_TOLERANCE_BPS : ℚ
  TAKE_PROFIT_PERCENTAGE : ℚ
  STOP_LOSS_PERCENTAGE : ℚ
  MIN_POOL_SIZE_SOL : ℚ
  SIMULATE_TRANSACTIONS : Bool
  RAYDIUM_LP_V4_PROGRAM_ID : String
deriving Repr, DecidableEq

/-! ## Data model -/

/-- `PoolDetected` payload published by the lp-monitor
(`{baseMint, quoteMint, lpAddress, detectionMethod, timestamp}`; the
`partial` detection path omits the timestamp). -/
structure PoolData where
  baseMint : String
  quoteMint : String
  lpAddress : String
  detectionMethod : Option String := none
  timestamp : Option ℕ := none
deriving Repr, DecidableEq

/-- Token metadata enrichment (name/symbol/uri) from Metaplex. -/
structure TokenMetadata where
  name : String
  symbol : String
  uri : String
deriving Repr, DecidableEq

/-- `BuyCandidate` payload published to the potential-buys channel:
the pool data spread together with optional metadata and a fresh
timestamp. -/
structure BuyCandidate where
  baseMint : String
  quoteMint : String
  lpAddress : String
  metadata : Option TokenMetadata := none
  timestamp : ℕ
deriving Repr, DecidableEq

/-- The fields of the Redis hash written under `positions:<baseMint>`.
`lpAddress` is optional because the buy executor's writes do not include
it (only the sell manager's own `processSuccessfulBuy` write does).
`isDryRun` is kept as the string Redis actually holds. -/
structure StoredPosition where
  baseMint : String
  buyPrice : ℚ
  amountInSol : ℚ
  tokenAmount : ℕ
  buyTimestamp : ℕ
  signature : String
  isDryRun : String
  lpAddress : Option String := none
deriving Repr, DecidableEq

/-- Serialisation of a JS boolean by `hset` (ioredis stringifies values). -/
def encodeBool (b : Bool) : String :=
  if b then "true" else "false"

/-- `positionData.isDryRun === 'true'` in `loadPositionsFromRedis`. -/
def decodeIsDryRun (s : String) : Bool :=
  s == "true"

/-- In-memory Position as held in the sell manager's `activePositions` map.
`buyPrice = 0` models the JS falsy values (`0`, absent) that the code
tests with `!position.buyPrice`. -/
structure Position where
  baseMint : String
  lpAddress : Option String
  amountInSol : ℚ
  buyTimestamp : ℕ
  signature : String
  tokenAmount : ℕ
  isDryRun : Bool
  buyPrice : ℚ
deriving Repr, DecidableEq

/-! ## Sell manager: sell-condition evaluation
(services/sell-manager/src/index.js, `evaluateSellConditions`) -/

/-- Result of a price calculation (`{price, liquidity, priceChangePercent}`).
`live` records the effect of which branch produced it: `true` exactly when
the LIVE branch (which opens an RPC connection) ran. -/
structure PriceData where
  price : ℚ
  liquidity : ℚ
  priceChangePercent : ℚ
  live : Bool
deriving Repr, DecidableEq

/-- `{shouldSell, reason}` returned by `evaluateSellConditions`. -/
structure SellDecision where
  shouldSell : Bool
  reason : String
deriving Repr, DecidableEq

/-- `evaluateSellConditions(baseMint, priceData, position)`: skip when the
position has no buy-price reference, otherwise compare the percentage price
change against the configured take-profit and stop-loss thresholds. -/
def evaluateSellConditions (cfg : Config) (priceData : PriceData)
    (position : Position) : SellDecision :=
  if position.buyPrice == 0 then
    { shouldSell := false, reason := "No buy price reference" }
  else
    let priceChangePercent := (priceData.price / position.buyPrice - 1) * 100
    if cfg.TAKE_PROFIT_PERCENTAGE ≤ priceChangePercent then
      { shouldSell := true, reason := "Take profit triggered" }
    else if priceChangePercent ≤ -cfg.STOP_LOSS_PERCENTAGE then
      { shouldSell := true, reason := "Stop loss triggered" }
    else
      { shouldSell := false, reason := "No sell condition met" }

/-! ## Token filter service
(token-filter `index.js`: `isValidSolanaAddress`, `checkTokenSecurity`,
`checkPoolLiquidity`, `filterToken`, `processNewPool`) -/

/-- Raw data of a token mint account as returned by `getAccountInfo`
(the code reads `data.slice(0, 32)` and `data[36]`). -/
structure MintAccountData where
  data : List ℕ
deriving Repr, DecidableEq

/-- Result shape of `checkTokenSecurity`. -/
structure SecurityResult where
  valid : Bool
  reason : Option String := none
  isKnownToken : Option Bool := none
  name : Option String := none
  hasMintAuthority : Option Bool := none
  hasFreezeAuthority : Option Bool := none
deriving Repr, DecidableEq

/-- Result shape of `checkPoolLiquidity`. -/
structure LiquidityResult where
  valid : Bool
  liquidity : Option ℚ := none
  reason : Option String := none
deriving Repr, DecidableEq

/-- External collaborators of the token filter.  `publicKeyParses` is the
success predicate of the `new PublicKey(address)` constructor;
`getMintAccount` is `getAccountInfo` on the mint (`.ok none` when the
account does not exist, `.err` when the RPC call throws); `getBalance` is
`getBalance` on the LP account in lamports; `getMetadata` is the Metaplex
metadata fetch, which the code collapses to `null` on any failure. -/
structure FilterEnv where
  publicKeyParses : String → Bool
  getMintAccount : String → ExtResult (Option MintAccountData)
  getBalance : String → ExtResult ℚ
  getMetadata : String → Option TokenMetadata

/-- `isValidSolanaAddress`: non-empty string matching the Solana address
regex for which the `PublicKey` constructor succeeds. -/
def isValidSolanaAddress (env : FilterEnv) (address : String) : Bool :=
  matchesSolanaAddressPattern address && env.publicKeyParses address

/-- `checkTokenSecurity(mintAddress)`: fail closed on any thrown RPC error
or missing mint account; report known trusted tokens; otherwise inspect the
mint-authority bytes and the freeze-authority byte. -/
def checkTokenSecurity (env : FilterEnv) (mintAddress : String) :
    SecurityResult :=
  match env.getMintAccount mintAddress with
  | .err message => { valid := false, reason := some message }
  | .ok none => { valid := false, reason := some "Mint account not found" }
  | .ok (some mintAccount) =>
    match knownTokenName mintAddress with
    | some tokenName =>
      { valid := true, isKnownToken := some true, name := some tokenName }
    | none =>
      let mintAuthority := mintAccount.data.take 32
      let freezeAuthorityEnabled := mintAccount.data.get? 36
      let mintAuthorityExists := !(mintAuthority.all (fun byte => byte == 0))
      { valid := true,
        hasMintAuthority := some mintAuthorityExists,
        hasFreezeAuthority := some (freezeAuthorityEnabled == some 1),
        isKnownToken := some false }

/-- `checkPoolLiquidity(lpAddress, quoteMint)`: for SOL pairs estimate the
liquidity from the LP account balance, failing closed when the balance
fetch throws; non-SOL pairs skip the detailed check and pass. -/
def checkPoolLiquidity (cfg : Config) (env : FilterEnv)
    (lpAddress quoteMint : String) : LiquidityResult :=
  if quoteMint == SOL_MINT then
    match env.getBalance lpAddress with
    | .err message => { valid := false, reason := some message }
    | .ok balance =>
      let solBalance := balance / LAMPORTS_PER_SOL
      { valid := decide (cfg.MIN_POOL_SIZE_SOL ≤ solBalance),
        liquidity := some solBalance,
        reason := if solBalance < cfg.MIN_POOL_SIZE_SOL then
            some "Insufficient liquidity" else none }
  else
    { valid := true, liquidity := none }

/-- The predicates `filterToken` evaluates, in source order; the returned
trace records which of them actually ran (external calls are minimised by
short-circuiting). -/
inductive FilterStep where
  | addressValidity
  | knownTokenCheck
  | securityCheck
  | liquidityCheck
deriving Repr, DecidableEq

/-- `filterToken(poolData)`: the ordered filter pipeline.  Returns the
pass/fail decision together with the trace of predicates evaluated. -/
def filterToken (cfg : Config) (env : FilterEnv) (poolData : PoolData) :
    Bool × List FilterStep :=
  if !(isValidSolanaAddress env poolData.baseMint &&
       isValidSolanaAddress env poolData.quoteMint &&
       isValidSolanaAddress env poolData.lpAddress) then
    (false, [.addressValidity])
  else if (knownTokenName poolData.baseMint).isSome then
    (false, [.addressValidity, .knownTokenCheck])
  else
    let securityCheck := checkTokenSecurity env poolData.baseMint
    if !securityCheck.valid then
      (false, [.addressValidity, .knownTokenCheck, .securityCheck])
    else
      let liquidityCheck :=
        checkPoolLiquidity cfg env poolData.lpAddress poolData.quoteMint
      if !liquidityCheck.valid then
        (false,
         [.addressValidity, .knownTokenCheck, .securityCheck,
          .liquidityCheck])
      else
        (true,
         [.addressValidity, .knownTokenCheck, .securityCheck,
          .liquidityCheck])

/-- `processNewPool(message)`: run the filters and, on a pass, publish the
enriched candidate to the potential-buys channel (`some`); otherwise emit
nothing (`none`). -/
def processNewPool (cfg : Config) (env : FilterEnv) (poolData : PoolData)
    (now : ℕ) : Option BuyCandidate :=
  if (filterToken cfg env poolData).1 then
    some { baseMint := poolData.baseMint,
           quoteMint := poolData.quoteMint,
           lpAddress := poolData.lpAddress,
           metadata := env.getMetadata poolData.baseMint,
           timestamp := now }
  else
    none

/-! ## Pool detector (lp-monitor `index.js`:
`parseRaydiumLpLogs`, `handleLogNotification`) -/

/-- Whether `pattern` occurs as a contiguous run inside `cs`
(kernel-reducible substring test over the character list). -/
def containsSub (cs pattern : List Char) : Bool :=
  match cs with
  | [] => pattern.isEmpty
  | _ :: tail => pattern.isPrefixOf cs || containsSub tail pattern

/-- The characters before the first occurrence of `pattern` (the whole
list when the pattern does not occur) — JS `split(pattern)[0]`. -/
def beforeFirst (cs pattern : List Char) : List Char :=
  match cs with
  | [] => []
  | c :: tail =>
    if pattern.isPrefixOf cs then [] else c :: beforeFirst tail pattern

/-- The characters after the first occurrence of `pattern`, when it
occurs. -/
def afterFirst (cs pattern : List Char) : Option (List Char) :=
  match cs with
  | [] => none
  | _ :: tail =>
    if pattern.isPrefixOf cs then some (cs.drop pattern.length)
    else afterFirst tail pattern

/-- JS `string.includes(pattern)` for a non-empty pattern. -/
def strContains (s pattern : String) : Bool :=
  containsSub s.toList pattern.toList

/-- JS `string.split(pattern)[1]`: the text between the first occurrence
of the pattern and the next occurrence (or the end); the empty string when
the pattern does not occur. -/
def splitSecond (s pattern : String) : String :=
  match afterFirst s.toList pattern.toList with
  | none => ""
  | some rest => String.mk (beforeFirst rest pattern.toList)

/-- JS `string.split(' ')[0]`. -/
def firstWord (s : String) : String :=
  String.mk (beforeFirst s.toList [' '])

/-- The whitespace characters JS `trim` removes (the ones occurring in
chain logs). -/
def isSpaceChar (c : Char) : Bool :=
  c == ' ' || c == '\t' || c == '\n' || c == '\r'

/-- JS `string.trim()`. -/
def strTrim (s : String) : String :=
  String.mk
    (((s.toList.dropWhile isSpaceChar).reverse.dropWhile isSpaceChar).reverse)

/-- JS truthiness of a possibly-undefined string: `undefined`/`null` and
the empty string are falsy. -/
def truthy : Option String → Bool
  | none => false
  | some s => !(s == "")

/-- JS `x || 'default'` on a possibly-undefined string. -/
def orDefault (x : Option String) (d : String) : String :=
  match x with
  | some s => if s == "" then d else s
  | none => d

/-- JS `x || y` on possibly-undefined strings. -/
def orFalsy (x y : Option String) : Option String :=
  if truthy x then x else y

/-- A chain log record as consumed by the lp-monitor:
`{logs, signature, err, logMessages}` (`err = none` is JS `null`,
i.e. a successful transaction). -/
structure LogRecord where
  logs : List String
  signature : Option String
  err : Option String
  logMessages : List String
deriving Repr, DecidableEq

/-- The mutable `baseMint`/`quoteMint`/`lpAddress` locals of the
extraction loop in `parseRaydiumLpLogs`. -/
structure ExtractedFields where
  baseMint : Option String := none
  quoteMint : Option String := none
  lpAddress : Option String := none
deriving Repr, DecidableEq

/-- One iteration of the extraction loop: an `else if` chain matching the
`base mint:` / `quote mint:` / `pool address:` markers. -/
def extractFromLine (acc : ExtractedFields) (logLine : String) :
    ExtractedFields :=
  if strContains logLine "base mint:" then
    { acc with baseMint := some (strTrim (splitSecond logLine "base mint:")) }
  else if strContains logLine "quote mint:" then
    { acc with quoteMint := some (strTrim (splitSecond logLine "quote mint:")) }
  else if strContains logLine "pool address:" then
    { acc with
        lpAddress := some (strTrim (splitSecond logLine "pool address:")) }
  else
    acc

/-- The `Initialize2` marker line test. -/
def isInitializeLine (logLine : String) : Bool :=
  strContains logLine "Program log: Instruction: Initialize2"

/-- The fields extracted by scanning the logs from the `Initialize2` line
onwards (empty when no such line exists). -/
def extractedFields (logRecord : LogRecord) : ExtractedFields :=
  match logRecord.logs.findIdx? isInitializeLine with
  | none => {}
  | some initializeLogIndex =>
    (logRecord.logs.drop initializeLogIndex).foldl extractFromLine {}

/-- External collaborator of the lp-monitor: the success predicate of the
`new PublicKey(address)` constructor. -/
structure LpEnv where
  publicKeyParses : String → Bool

/-- `parseRaydiumLpLogs(log)`: find the `Initialize2` marker, extract the
three addresses from the labelled log lines, validate them, and fall back
to a `partial` detection (with `unknown` placeholders and no validation)
when extraction is incomplete on a successful transaction. -/
def parseRaydiumLpLogs (env : LpEnv) (now : ℕ) (logRecord : LogRecord) :
    Option PoolData :=
  if logRecord.logs.isEmpty then none
  else if (logRecord.logs.findIdx? isInitializeLine).isNone then none
  else if !(truthy (extractedFields logRecord).baseMint &&
            truthy (extractedFields logRecord).quoteMint &&
            truthy (extractedFields logRecord).lpAddress) then
    if truthy logRecord.signature && logRecord.err == none then
      if truthy (orFalsy (extractedFields logRecord).lpAddress
          (logRecord.logMessages.head?.map firstWord)) then
        some { baseMint := orDefault (extractedFields logRecord).baseMint
                 "unknown",
               quoteMint := orDefault (extractedFields logRecord).quoteMint
                 "unknown",
               lpAddress := orDefault
                 (orFalsy (extractedFields logRecord).lpAddress
                   (logRecord.logMessages.head?.map firstWord)) "",
               detectionMethod := some "partial" }
      else
        none
    else
      none
  else
    if env.publicKeyParses (orDefault (extractedFields logRecord).baseMint "") &&
       env.publicKeyParses (orDefault (extractedFields logRecord).quoteMint "") &&
       env.publicKeyParses (orDefault (extractedFields logRecord).lpAddress "")
    then
      some { baseMint := orDefault (extractedFields logRecord).baseMint "",
             quoteMint := orDefault (extractedFields logRecord).quoteMint "",
             lpAddress := orDefault (extractedFields logRecord).lpAddress "",
             timestamp := some now,
             detectionMethod := some "log_parse" }
    else
      none

/-- `handleLogNotification(notification)`: `none` input models a
notification without a `value`/`logs` field; otherwise gate on the target
DEX program id and publish the parsed pool data (`some`) to the new-pools
channel, at most once per notification. -/
def handleLogNotification (cfg : Config) (env : LpEnv) (now : ℕ)
    (notification : Option LogRecord) : Option PoolData :=
  match notification with
  | none => none
  | some logRecord =>
    let programId := logRecord.logMessages.head?.map firstWord
    if programId == some cfg.RAYDIUM_LP_V4_PROGRAM_ID then
      parseRaydiumLpLogs env now logRecord
    else
      none

/-! ## Buy executor (buy-executor `index.js`:
`executeSwap`, `processPotentialBuy`) -/

/-- Parsed payload of a potential-buy message. -/
structure TokenData where
  baseMint : String
  quoteMint : String
  lpAddress : String
deriving Repr, DecidableEq

/-- The arguments of the swap instruction the executor builds
(`buildRaydiumSwapInstruction(..., amountIn, minAmountOut)`). -/
structure SwapInstructionArgs where
  amountIn : ℚ
  minAmountOut : ℚ
deriving Repr, DecidableEq

/-- The swap-instruction arguments of `executeSwap`'s live path:
`amountInLamports = BUY_AMOUNT_SOL * LAMPORTS_PER_SOL` and the
minimum-output bound, which the source sets to the literal dummy `1`
(`const minAmountOut = 1`). -/
def buySwapInstructionArgs (cfg : Config) : SwapInstructionArgs :=
  { amountIn := cfg.BUY_AMOUNT_SOL * LAMPORTS_PER_SOL, minAmountOut := 1 }

/-- Oracle for one `executeSwap` call: the random draws of the dry-run
simulation and the outcomes of the external calls of the live path. -/
structure BuyEnv where
  simSignature : String
  successDraw : ℚ
  simTokenAmount : ℕ
  preSendThrow : Option String
  preflightSimError : Option String
  liveSignature : String
  confirmErr : Option String
deriving Repr, DecidableEq

/-- Result shape of `executeSwap`. -/
structure SwapResult where
  success : Bool
  signature : Option String := none
  error : Option String := none
deriving Repr, DecidableEq

/-- Observable state of the buy executor: the durable position store, the
successful-buys channel, the `stats:buy_count` counter, and counters for
the purchases executed (simulated and really sent). -/
structure BuyState where
  store : List (String × StoredPosition) := []
  publishedBuys : List String := []
  buyCount : ℕ := 0
  simulatedPurchases : ℕ := 0
  sentTransactions : ℕ := 0
  builtSwaps : List SwapInstructionArgs := []
deriving Repr, DecidableEq

/-- The position record `executeSwap` persists after a successful dry-run
simulation (`hset positions:<baseMint>` with `isDryRun: true` and the
simulated price/amount). -/
def dryRunPositionRecord (cfg : Config) (env : BuyEnv) (now : ℕ)
    (tokenData : TokenData) : StoredPosition :=
  { baseMint := tokenData.baseMint,
    buyPrice := cfg.BUY_AMOUNT_SOL / ((env.simTokenAmount : ℚ) / LAMPORTS_PER_SOL),
    amountInSol := cfg.BUY_AMOUNT_SOL,
    tokenAmount := env.simTokenAmount,
    buyTimestamp := now,
    signature := env.simSignature,
    isDryRun := encodeBool true }

/-- The position record `executeSwap` persists after a confirmed live buy:
`buyPrice: 0` (the comment reads `Would calculate actual price in
production`), the placeholder token amount `1000000`, `isDryRun: false`. -/
def livePositionRecord (cfg : Config) (env : BuyEnv) (now : ℕ)
    (tokenData : TokenData) : StoredPosition :=
  { baseMint := tokenData.baseMint,
    buyPrice := 0,
    amountInSol := cfg.BUY_AMOUNT_SOL,
    tokenAmount := 1000000,
    buyTimestamp := now,
    signature := env.liveSignature,
    isDryRun := encodeBool false }

/-- The Redis key `positions:<baseMint>`. -/
def positionKey (baseMint : String) : String :=
  "positions:" ++ baseMint

/-- `executeSwap(tokenData)`: dry-run branch simulates the purchase and
persists a dry-run position on simulated success; the live branch builds
the transaction, optionally preflight-simulates it, sends it, awaits
confirmation, and persists a live position on confirmed success. -/
def executeSwap (cfg : Config) (env : BuyEnv) (now : ℕ) (st : BuyState)
    (tokenData : TokenData) : BuyState × SwapResult :=
  if cfg.DRY_RUN then
    -- simulateTransaction: one simulated purchase is executed
    if env.successDraw < cfg.DRY_RUN_SUCCESS_RATE then
      ({ st with
          simulatedPurchases := st.simulatedPurchases + 1,
          publishedBuys := st.publishedBuys ++ [tokenData.baseMint],
          store := setKey st.store (positionKey tokenData.baseMint)
            (dryRunPositionRecord cfg env now tokenData),
          buyCount := st.buyCount + 1 },
       { success := true, signature := some env.simSignature })
    else
      ({ st with simulatedPurchases := st.simulatedPurchases + 1 },
       { success := false, signature := some env.simSignature,
         error := some "simulated failure" })
  else
    match env.preSendThrow with
    | some message => (st, { success := false, error := some message })
    | none =>
      if cfg.SIMULATE_TRANSACTIONS && env.preflightSimError.isSome then
        ({ st with builtSwaps := st.builtSwaps ++ [buySwapInstructionArgs cfg] },
         { success := false, error := env.preflightSimError })
      else
        -- sendRawTransaction
        match env.confirmErr with
        | some message =>
          ({ st with
              builtSwaps := st.builtSwaps ++ [buySwapInstructionArgs cfg],
              sentTransactions := st.sentTransactions + 1 },
           { success := false, signature := some env.liveSignature,
             error := some message })
        | none =>
          ({ st with
              builtSwaps := st.builtSwaps ++ [buySwapInstructionArgs cfg],
              sentTransactions := st.sentTransactions + 1,
              publishedBuys := st.publishedBuys ++ [tokenData.baseMint],
              store := setKey st.store (positionKey tokenData.baseMint)
                (livePositionRecord cfg env now tokenData),
              buyCount := st.buyCount + 1 },
           { success := true, signature := some env.liveSignature })

/-- `processPotentialBuy(message)`: skip non-SOL pairs, otherwise execute
the swap.  There is no duplicate check against the position store — every
SOL-pair delivery reaches `executeSwap`. -/
def processPotentialBuy (cfg : Config) (env : BuyEnv) (now : ℕ)
    (st : BuyState) (tokenData : TokenData) : BuyState :=
  if !(tokenData.quoteMint == SOL_MINT) then
    st
  else
    (executeSwap cfg env now st tokenData).1

/-- A sequence of potential-buy deliveries, each with the oracle for its
`executeSwap` call, processed in order. -/
def processBuyMessages (cfg : Config) (now : ℕ)
    (messages : List (TokenData × BuyEnv)) (st : BuyState) : BuyState :=
  messages.foldl (fun acc msg => processPotentialBuy cfg msg.2 now acc msg.1) st

/-! ## Sell manager (services/sell-manager/src/index.js:
`loadPositionsFromRedis`, `calculateTokenPrice`, `executeSellTransaction`,
`checkPositionsAndSell`) -/

/-- The parsing `loadPositionsFromRedis` applies to a stored hash:
numeric fields via `parseFloat`/`parseInt` (identity on our idealised
values) and `isDryRun` via strict comparison with the string `true`. -/
def decodeStoredPosition (d : StoredPosition) : Position :=
  { baseMint := d.baseMint,
    lpAddress := d.lpAddress,
    amountInSol := d.amountInSol,
    buyTimestamp := d.buyTimestamp,
    signature := d.signature,
    tokenAmount := d.tokenAmount,
    isDryRun := decodeIsDryRun d.isDryRun,
    buyPrice := d.buyPrice }

/-- `loadPositionsFromRedis()`: enumerate all `positions:*` keys, skip
entries without a `baseMint` field, parse the rest and `set` them into the
(initially empty) `activePositions` map keyed by `baseMint`. -/
def loadPositionsFromRedis (store : List (String × StoredPosition)) :
    List (String × Position) :=
  store.foldl
    (fun acc entry =>
      if entry.2.baseMint == "" then acc
      else setKey acc entry.2.baseMint (decodeStoredPosition entry.2))
    []

/-- Oracle for one `calculateTokenPrice` call: the `Math.random()` draws
of both branches and the possible failure of the live branch's RPC
connection. -/
structure PriceEnv where
  volDraw : ℚ
  dirDraw : ℚ
  trendDraw : ℚ
  liqDraw : ℚ
  moveDraw : ℚ
  connectionThrow : Option String
deriving Repr, DecidableEq

/-- The body of `calculateTokenPrice` after the `activePositions` lookup
has produced `position`.  The dry-run branch synthesises a time-bucketed
volatile price; the LIVE branch opens an RPC connection (`live := true`)
and, in this placeholder implementation, also synthesises a price. -/
def calcPriceForPosition (cfg : Config) (env : PriceEnv) (now : ℕ)
    (position : Position) (isDryRun : Bool) : Option PriceData :=
  if isDryRun || cfg.DRY_RUN then
    let initialPrice := if position.buyPrice == 0 then 1 else position.buyPrice
    let minutesSinceBuy :=
      ((now : ℚ) - (position.buyTimestamp : ℚ)) / (1000 * 60)
    let randomFactor := env.volDraw * cfg.DRY_RUN_PRICE_VOLATILITY / 100
    let multiplier :=
      if minutesSinceBuy < 10 then
        1 + (if 1/2 < env.dirDraw then randomFactor * 3 else -(randomFactor * 2))
      else if minutesSinceBuy < 60 then
        1 + (env.trendDraw * (3/2) - 1/2) * randomFactor
      else
        let downwardPressure := min (7/10) (minutesSinceBuy / 300)
        1 + (env.moveDraw * (6/5) - downwardPressure) * randomFactor
    let newPrice := initialPrice * multiplier
    let liquidity := 5 + env.liqDraw * 20
    some { price := newPrice,
           liquidity := liquidity,
           priceChangePercent := (newPrice / initialPrice - 1) * 100,
           live := false }
  else
    match env.connectionThrow with
    | some _ => none
    | none =>
      let initialPrice := if position.buyPrice == 0 then 1 else position.buyPrice
      let priceMovementPercent := -50 + env.moveDraw * 250
      let newPrice := initialPrice * (1 + priceMovementPercent / 100)
      let liquidity := 5 + env.liqDraw * 20
      some { price := newPrice,
             liquidity := liquidity,
             priceChangePercent := priceMovementPercent,
             live := true }

/-- `calculateTokenPrice(baseMint, lpAddress, isDryRun)`: look the position
up in `activePositions` (warn and return `null` when absent), then price
it. -/
def calculateTokenPrice (cfg : Config) (env : PriceEnv)
    (activePositions : List (String × Position)) (now : ℕ)
    (baseMint : String) (_lpAddress : Option String) (isDryRun : Bool) :
    Option PriceData :=
  match getKey activePositions baseMint with
  | none => none
  | some position => calcPriceForPosition cfg env now position isDryRun

/-- `expectedSolAmount = tokenAmount * priceData.price`. -/
def sellExpectedSolAmount (tokenAmount : ℕ) (price : ℚ) : ℚ :=
  (tokenAmount : ℚ) * price

/-- `slippageFactor = 1 - SLIPPAGE_TOLERANCE_BPS / 10000`. -/
def sellSlippageFactor (cfg : Config) : ℚ :=
  1 - cfg.SLIPPAGE_TOLERANCE_BPS / 10000

/-- `minSolAmount = expectedSolAmount * slippageFactor` in
`executeSellTransaction`. -/
def sellMinSolAmount (cfg : Config) (tokenAmount : ℕ) (price : ℚ) : ℚ :=
  sellExpectedSolAmount tokenAmount price * sellSlippageFactor cfg

/-- Oracle for one `executeSellTransaction` call. -/
structure SellEnv where
  simSignature : String
  successDraw : ℚ
  connectionThrow : Option String
  getTokenAccount : ExtResult ℕ
  preflightSimError : Option String
  liveSignature : String
  confirmErr : Option String
deriving Repr, DecidableEq

/-- Result shape of `executeSellTransaction`, extended with the effect flag
`realSend` (`true` exactly when `sendRawTransaction` ran on the real
network). -/
structure SellTxResult where
  success : Bool
  realSend : Bool
  signature : Option String := none
  error : Option String := none
  minSolAmount : Option ℚ := none
deriving Repr, DecidableEq

/-- Observable state of the sell manager: the in-memory working set, the
durable position store, the successful-sells channel, and the
`stats:sell_count` counter. -/
structure SellState where
  active : List (String × Position)
  store : List (String × StoredPosition)
  publishedSells : List String := []
  sellCount : ℕ := 0
deriving Repr, DecidableEq

/-- `executeSellTransaction(baseMint, priceData, position)`: positions
that are dry-run (or a globally dry-run process) go through
`simulateSellTransaction`; otherwise the live path fetches the token
balance, builds the sell swap with the slippage-derived minimum output,
sends and confirms.  Every success deletes `positions:<baseMint>` from the
durable store; every failure leaves the state untouched. -/
def executeSellTransaction (cfg : Config) (env : SellEnv) (st : SellState)
    (baseMint : String) (priceData : PriceData) (position : Position) :
    SellState × SellTxResult :=
  if position.isDryRun || cfg.DRY_RUN then
    if env.successDraw < cfg.DRY_RUN_SUCCESS_RATE then
      ({ st with
          publishedSells := st.publishedSells ++ [baseMint],
          store := delKey st.store (positionKey baseMint),
          sellCount := st.sellCount + 1 },
       { success := true, realSend := false,
         signature := some env.simSignature })
    else
      (st, { success := false, realSend := false,
             signature := some env.simSignature,
             error := some "simulated failure" })
  else
    match env.connectionThrow with
    | some message =>
      (st, { success := false, realSend := false, error := some message })
    | none =>
      match env.getTokenAccount with
      | .err message =>
        (st, { success := false, realSend := false,
               error := some ("Token account error: " ++ message) })
      | .ok tokenAmount =>
        if tokenAmount == 0 then
          (st, { success := false, realSend := false,
                 error := some "No tokens to sell" })
        else
          if cfg.SIMULATE_TRANSACTIONS && env.preflightSimError.isSome then
            (st, { success := false, realSend := false,
                   error := env.preflightSimError,
                   minSolAmount :=
                     some (sellMinSolAmount cfg tokenAmount priceData.price) })
          else
            -- sendRawTransaction
            match env.confirmErr with
            | some message =>
              (st, { success := false, realSend := true,
                     signature := some env.liveSignature,
                     error := some message,
                     minSolAmount :=
                       some (sellMinSolAmount cfg tokenAmount
                         priceData.price) })
            | none =>
              ({ st with
                  publishedSells := st.publishedSells ++ [baseMint],
                  store := delKey st.store (positionKey baseMint),
                  sellCount := st.sellCount + 1 },
               { success := true, realSend := true,
                 signature := some env.liveSignature,
                 minSolAmount :=
                   some (sellMinSolAmount cfg tokenAmount
                     priceData.price) })

/-- Oracles for one tick of the polling loop, indexed by position key. -/
structure PerPositionEnv where
  price : PriceEnv
  sell : SellEnv

/-- Outcome of processing one position in `checkPositionsAndSell`. -/
inductive PositionOutcome where
  | skippedNoPrice
  | noTrigger
  | sellFailed
  | sold
deriving Repr, DecidableEq

/-- The loop body of `checkPositionsAndSell` for one `[baseMint, position]`
entry: fetch the price (skip-and-continue on failure), evaluate the sell
conditions, execute the sell when triggered, and remove the position from
the working set only when the sell succeeded. -/
def processPosition (cfg : Config) (env : PerPositionEnv) (now : ℕ)
    (st : SellState) (baseMint : String) (position : Position) :
    SellState × PositionOutcome :=
  match calculateTokenPrice cfg env.price st.active now baseMint
      position.lpAddress position.isDryRun with
  | none => (st, .skippedNoPrice)
  | some priceData =>
    if (evaluateSellConditions cfg priceData position).shouldSell then
      if (executeSellTransaction cfg env.sell st baseMint priceData
          position).2.success then
        ({ (executeSellTransaction cfg env.sell st baseMint priceData
              position).1 with
            active := delKey (executeSellTransaction cfg env.sell st baseMint
              priceData position).1.active baseMint }, .sold)
      else
        ((executeSellTransaction cfg env.sell st baseMint priceData
           position).1, .sellFailed)
    else
      (st, .noTrigger)

/-- `checkPositionsAndSell()`: one tick over the entries of the working
set. -/
def checkPositionsAndSell (cfg : Config) (env : String → PerPositionEnv)
    (now : ℕ) (st : SellState) : SellState :=
  if st.active.isEmpty then st
  else
    st.active.foldl
      (fun acc entry =>
        (processPosition cfg (env entry.1) now acc entry.1 entry.2).1)
      st

/-- Whether the sell attempt of `executeSellTransaction` succeeds — a pure
function of the configuration, the oracle and the position (independent of
the ambient state). -/
def sellTxSucceeds (cfg : Config) (env : SellEnv) (position : Position) :
    Bool :=
  if position.isDryRun || cfg.DRY_RUN then
    decide (env.successDraw < cfg.DRY_RUN_SUCCESS_RATE)
  else
    match env.connectionThrow with
    | some _ => false
    | none =>
      match env.getTokenAccount with
      | .err _ => false
      | .ok tokenAmount =>
        if tokenAmount == 0 then false
        else if cfg.SIMULATE_TRANSACTIONS && env.preflightSimError.isSome then
          false
        else
          env.confirmErr == none

/-- Whether one tick removes (successfully sells) a given position, as a
pure function of the per-position oracle and the position itself. -/
def tickSellSucceeds (cfg : Config) (env : PerPositionEnv) (now : ℕ)
    (position : Position) : Bool :=
  match calcPriceForPosition cfg env.price now position position.isDryRun with
  | none => false
  | some priceData =>
    (evaluateSellConditions cfg priceData position).shouldSell &&
      sellTxSucceeds cfg env.sell position

/-- Number of entries of a keyed store holding a given key. -/
def countKey {α : Type} (m : List (String × α)) (k : String) : ℕ :=
  (m.map Prod.fst).count k

/-! ## Helper lemmas about keyed stores -/

theorem setKey_of_forall_ne {α : Type} {m : List (String × α)} {k : String}
    (v : α) (h : ∀ p ∈ m, p.1 ≠ k) : setKey m k v = m ++ [(k, v)] := by
  unfold setKey
  rw [if_neg]
  intro hc
  simp only [List.any_eq_true, beq_iff_eq] at hc
  obtain ⟨p, hp, hpk⟩ := hc
  exact h p hp hpk

theorem map_fst_setKey_of_any {α : Type} {m : List (String × α)} {k : String}
    (v : α) (h : m.any (fun p => p.1 == k) = true) :
    (setKey m k v).map Prod.fst = m.map Prod.fst := by
  unfold setKey
  rw [if_pos h, List.map_map]
  apply List.map_congr_left
  intro p _
  by_cases hp : p.1 = k
  · simp [hp]
  · simp [hp]

theorem nodup_keys_setKey {α : Type} {m : List (String × α)} {k : String}
    (v : α) (h : (m.map Prod.fst).Nodup) :
    ((setKey m k v).map Prod.fst).Nodup := by
  by_cases hany : m.any (fun p => p.1 == k) = true
  · rw [map_fst_setKey_of_any v hany]
    exact h
  · have hnotmem : k ∉ m.map Prod.fst := by
      intro hk
      obtain ⟨p, hp, hpk⟩ := List.mem_map.mp hk
      apply hany
      simp only [List.any_eq_true, beq_iff_eq]
      exact ⟨p, hp, hpk⟩
    rw [setKey_of_forall_ne v
      (fun p hp hpk => hnotmem (List.mem_map.mpr ⟨p, hp, hpk⟩))]
    rw [List.map_append, List.nodup_append]
    refine ⟨h, by simp, ?_⟩
    intro x hx hx2
    simp only [List.map_cons, List.map_nil, List.mem_singleton] at hx2
    subst hx2
    exact hnotmem hx

theorem getKey_cons {α : Type} (head : String × α) (m : List (String × α))
    (k : String) :
    getKey (head :: m) k = if head.1 == k then some head.2 else getKey m k := by
  unfold getKey
  rw [List.find?_cons]
  cases hk : (head.1 == k) <;> simp

theorem delKey_cons {α : Type} (head : String × α) (m : List (String × α))
    (k' : String) :
    delKey (head :: m) k' =
      if head.1 == k' then delKey m k' else head :: delKey m k' := by
  unfold delKey
  rw [List.filter_cons]
  cases hk : (head.1 == k') <;> simp

theorem getKey_of_mem_nodup {α : Type} {m : List (String × α)} {k : String}
    {v : α} (hnd : (m.map Prod.fst).Nodup) (hmem : (k, v) ∈ m) :
    getKey m k = some v := by
  induction m with
  | nil => cases hmem
  | cons head tail ih =>
    rw [getKey_cons]
    rcases List.mem_cons.mp hmem with heq | htail
    · subst heq
      simp
    · have hne : head.1 ≠ k := by
        intro hc
        have hk : k ∈ tail.map Prod.fst :=
          List.mem_map.mpr ⟨(k, v), htail, rfl⟩
        rw [List.map_cons, List.nodup_cons] at hnd
        exact hnd.1 (hc ▸ hk)
      rw [if_neg (by simpa using hne)]
      exact ih (by rw [List.map_cons, List.nodup_cons] at hnd; exact hnd.2)
        htail

theorem getKey_delKey_ne {α : Type} {m : List (String × α)} {k k' : String}
    (h : k ≠ k') : getKey (delKey m k') k = getKey m k := by
  induction m with
  | nil => rfl
  | cons head tail ih =>
    rw [delKey_cons, getKey_cons]
    by_cases hh : head.1 = k'
    · rw [if_pos (by simpa using hh), ih]
      have hne : head.1 ≠ k := by rw [hh]; exact fun hc => h hc.symm
      rw [if_neg (by simpa using hne)]
    · rw [if_neg (by simpa using hh), getKey_cons]
      by_cases hk : head.1 = k
      · rw [if_pos (by simpa using hk), if_pos (by simpa using hk)]
      · rw [if_neg (by simpa using hk), if_neg (by simpa using hk)]
        exact ih

theorem mem_delKey_of_ne {α : Type} {m : List (String × α)} {k k' : String}
    {v : α} (hmem : (k, v) ∈ m) (h : k ≠ k') : (k, v) ∈ delKey m k' := by
  refine List.mem_filter.mpr ⟨hmem, ?_⟩
  simp [h]

theorem nodup_keys_delKey {α : Type} {m : List (String × α)} {k' : String}
    (h : (m.map Prod.fst).Nodup) : ((delKey m k').map Prod.fst).Nodup :=
  List.Nodup.sublist ((List.filter_sublist m).map Prod.fst) h

theorem countKey_le_one_of_nodup {α : Type} {m : List (String × α)}
    (h : (m.map Prod.fst).Nodup) (k : String) : countKey m k ≤ 1 :=
  List.nodup_iff_count_le_one.mp h k

theorem positionKey_injective {a b : String}
    (h : positionKey a = positionKey b) : a = b := by
  have hd := congrArg String.data h
  simp only [positionKey, String.data_append] at hd
  exact String.ext (List.append_cancel_left hd)

/-! ## Claim theorems -/

theorem shouldSell_iff_thresholds (cfg : Config) (priceData : PriceData)
    (position : Position) (hne : position.buyPrice ≠ 0) :
    (evaluateSellConditions cfg priceData position).shouldSell = true ↔
      (cfg.TAKE_PROFIT_PERCENTAGE ≤
        (priceData.price / position.buyPrice - 1) * 100 ∨
       (priceData.price / position.buyPrice - 1) * 100 ≤
        -cfg.STOP_LOSS_PERCENTAGE) := by
  unfold evaluateSellConditions
  rw [if_neg (by simpa using hne)]
  by_cases htp : cfg.TAKE_PROFIT_PERCENTAGE ≤
      (priceData.price / position.buyPrice - 1) * 100
  · simp [htp]
  · by_cases hsl : (priceData.price / position.buyPrice - 1) * 100 ≤
        -cfg.STOP_LOSS_PERCENTAGE
    · simp [htp, hsl]
    · simp [htp, hsl]

theorem take_profit_threshold_iff (P T p : ℚ) (hP : 0 < P) :
    (T ≤ (p / P - 1) * 100) ↔ P * (1 + T / 100) ≤ p := by
  rw [← div_le_iff₀ (show (0:ℚ) < 100 by norm_num)]
  rw [le_sub_iff_add_le]
  rw [le_div_iff₀ hP]
  constructor
  · intro h
    calc P * (1 + T / 100) = (T / 100 + 1) * P := by ring
    _ ≤ p := h
  · intro h
    calc (T / 100 + 1) * P = P * (1 + T / 100) := by ring
    _ ≤ p := h

theorem stop_loss_threshold_iff (P S p : ℚ) (hP : 0 < P) :
    ((p / P - 1) * 100 ≤ -S) ↔ p ≤ P * (1 - S / 100) := by
  rw [← le_div_iff₀ (show (0:ℚ) < 100 by norm_num)]
  rw [sub_le_iff_le_add]
  rw [div_le_iff₀ hP]
  constructor
  · intro h
    calc p ≤ (-S / 100 + 1) * P := h
    _ = P * (1 - S / 100) := by ring
  · intro h
    calc p ≤ P * (1 - S / 100) := h
    _ = (-S / 100 + 1) * P := by ring

/-- Claim C3: for a position with `buyPrice = P > 0`, take-profit threshold
`T` and stop-loss threshold `S`, `evaluateSellConditions` decides to sell
exactly when the fetched price is at or above `P * (1 + T / 100)` or at or
below `P * (1 - S / 100)`, and decides not to sell for every price strictly
between those bounds. -/
theorem C3_sell_trigger_correct (cfg : Config) (priceData : PriceData)
    (position : Position) (hP : 0 < position.buyPrice) :
    (evaluateSellConditions cfg priceData position).shouldSell = true ↔
      (position.buyPrice * (1 + cfg.TAKE_PROFIT_PERCENTAGE / 100) ≤
        priceData.price ∨
       priceData.price ≤
        position.buyPrice * (1 - cfg.STOP_LOSS_PERCENTAGE / 100)) := by
  rw [shouldSell_iff_thresholds cfg priceData position (ne_of_gt hP)]
  rw [take_profit_threshold_iff position.buyPrice cfg.TAKE_PROFIT_PERCENTAGE
    priceData.price hP]
  rw [stop_loss_threshold_iff position.buyPrice cfg.STOP_LOSS_PERCENTAGE
    priceData.price hP]

/-- Witness for C3 at a concrete position: buy price 1, thresholds 50/30,
current price 2 (a take-profit trigger). -/
theorem C3_sell_trigger_correct_witness :
    (0 : ℚ) < 1 ∧
    ((evaluateSellConditions
        { DRY_RUN := false, DRY_RUN_SUCCESS_RATE := 100,
          DRY_RUN_CONFIRMATION_MS := 2000, DRY_RUN_PRICE_VOLATILITY := 30,
          BUY_AMOUNT_SOL := 1/10, SLIPPAGE_TOLERANCE_BPS := 100,
          TAKE_PROFIT_PERCENTAGE := 50, STOP_LOSS_PERCENTAGE := 30,
          MIN_POOL_SIZE_SOL := 5, SIMULATE_TRANSACTIONS := false,
          RAYDIUM_LP_V4_PROGRAM_ID := "675kPX9MHTjS2zt1qfr1NYHuzeLXfQM9H24wFSUt1Mp8" }
        { price := 2, liquidity := 10, priceChangePercent := 100,
          live := false }
        { baseMint := "Mint11111111111111111111111111111111111111",
          lpAddress := some "Lp111111111111111111111111111111111111111",
          amountInSol := 1/10, buyTimestamp := 0, signature := "sig",
          tokenAmount := 1000, isDryRun := true,
          buyPrice := 1 }).shouldSell = true ↔
      ((1 : ℚ) * (1 + 50 / 100) ≤ 2 ∨ (2 : ℚ) ≤ 1 * (1 - 30 / 100))) :=
  ⟨by norm_num,
   C3_sell_trigger_correct _ _ _ (by norm_num)⟩

/-- Claim C10: a position whose `buyPrice` is 0 (or absent) never triggers
a sell: `evaluateSellConditions` returns `shouldSell = false` on every
tick.  In particular the live (non-dry-run) buy path persists its position
with `buyPrice: 0`, so such a position can never satisfy a take-profit or
stop-loss trigger. -/
theorem C10_zero_buy_price_never_sells (cfg : Config)
    (priceData : PriceData) (position : Position) (cfg2 : Config)
    (env2 : BuyEnv) (now2 : ℕ) (tokenData2 : TokenData) :
    (position.buyPrice = 0 →
      (evaluateSellConditions cfg priceData position).shouldSell = false) ∧
    (livePositionRecord cfg2 env2 now2 tokenData2).buyPrice = 0 ∧
    (evaluateSellConditions cfg priceData
      (decodeStoredPosition
        (livePositionRecord cfg2 env2 now2 tokenData2))).shouldSell =
      false := by
  refine ⟨?_, rfl, ?_⟩
  · intro h
    simp [evaluateSellConditions, h]
  · simp [evaluateSellConditions, decodeStoredPosition, livePositionRecord]

/-- Witness for C10: a concrete position with `buyPrice = 0` is never
sold. -/
theorem C10_zero_buy_price_never_sells_witness :
    (evaluateSellConditions
      { DRY_RUN := false, DRY_RUN_SUCCESS_RATE := 100,
        DRY_RUN_CONFIRMATION_MS := 2000, DRY_RUN_PRICE_VOLATILITY := 30,
        BUY_AMOUNT_SOL := 1/10, SLIPPAGE_TOLERANCE_BPS := 100,
        TAKE_PROFIT_PERCENTAGE := 50, STOP_LOSS_PERCENTAGE := 30,
        MIN_POOL_SIZE_SOL := 5, SIMULATE_TRANSACTIONS := false,
        RAYDIUM_LP_V4_PROGRAM_ID := "675kPX9MHTjS2zt1qfr1NYHuzeLXfQM9H24wFSUt1Mp8" }
      { price := 1000000, liquidity := 10, priceChangePercent := 0,
        live := false }
      { baseMint := "Mint11111111111111111111111111111111111111",
        lpAddress := none, amountInSol := 1/10, buyTimestamp := 0,
        signature := "sig", tokenAmount := 1000, isDryRun := false,
        buyPrice := 0 }).shouldSell = false :=
  (C10_zero_buy_price_never_sells _ _ _
    { DRY_RUN := false, DRY_RUN_SUCCESS_RATE := 100,
      DRY_RUN_CONFIRMATION_MS := 2000, DRY_RUN_PRICE_VOLATILITY := 30,
      BUY_AMOUNT_SOL := 1/10, SLIPPAGE_TOLERANCE_BPS := 100,
      TAKE_PROFIT_PERCENTAGE := 50, STOP_LOSS_PERCENTAGE := 30,
      MIN_POOL_SIZE_SOL := 5, SIMULATE_TRANSACTIONS := false,
      RAYDIUM_LP_V4_PROGRAM_ID := "675kPX9MHTjS2zt1qfr1NYHuzeLXfQM9H24wFSUt1Mp8" }
    { simSignature := "s", successDraw := 0, simTokenAmount := 1,
      preSendThrow := none, preflightSimError := none,
      liveSignature := "s2", confirmErr := none } 0
    { baseMint := "Mint11111111111111111111111111111111111111",
      quoteMint := "So11111111111111111111111111111111111111112",
      lpAddress := "Lp111111111111111111111111111111111111111" }).1 rfl

/-- Claim C2: every action taken on a position flagged `isDryRun = true`
runs on the simulated path, whatever the global dry-run configuration: the
price fetch never enters the LIVE RPC branch, and the sell execution never
reaches `sendRawTransaction`. -/
theorem C2_dry_run_purity (cfg : Config) (penv : PriceEnv) (senv : SellEnv)
    (st : SellState) (activePositions : List (String × Position)) (now : ℕ)
    (baseMint : String) (lp : Option String) (priceData : PriceData)
    (position : Position) (hdry : position.isDryRun = true) :
    (∀ r, calculateTokenPrice cfg penv activePositions now baseMint lp
        position.isDryRun = some r → r.live = false) ∧
    (executeSellTransaction cfg senv st baseMint priceData
      position).2.realSend = false := by
  constructor
  · intro r hr
    unfold calculateTokenPrice at hr
    cases hfind : getKey activePositions baseMint with
    | none => rw [hfind] at hr; cases hr
    | some pos2 =>
      rw [hfind] at hr
      unfold calcPriceForPosition at hr
      rw [hdry] at hr
      simp only [Bool.true_or, if_true] at hr
      cases hr
      rfl
  · unfold executeSellTransaction
    rw [hdry]
    simp only [Bool.true_or, if_true]
    by_cases hsucc : senv.successDraw < cfg.DRY_RUN_SUCCESS_RATE
    · simp [hsucc]
    · simp [hsucc]

/-- Witness for C2: a dry-run position in a globally live process
(`DRY_RUN = false`) still never sends a real transaction. -/
theorem C2_dry_run_purity_witness :
    (executeSellTransaction
      { DRY_RUN := false, DRY_RUN_SUCCESS_RATE := 100,
        DRY_RUN_CONFIRMATION_MS := 2000, DRY_RUN_PRICE_VOLATILITY := 30,
        BUY_AMOUNT_SOL := 1/10, SLIPPAGE_TOLERANCE_BPS := 100,
        TAKE_PROFIT_PERCENTAGE := 50, STOP_LOSS_PERCENTAGE := 30,
        MIN_POOL_SIZE_SOL := 5, SIMULATE_TRANSACTIONS := false,
        RAYDIUM_LP_V4_PROGRAM_ID := "675kPX9MHTjS2zt1qfr1NYHuzeLXfQM9H24wFSUt1Mp8" }
      { simSignature := "simsig", successDraw := 0,
        connectionThrow := none, getTokenAccount := .ok 1000,
        preflightSimError := none, liveSignature := "livesig",
        confirmErr := none }
      { active := [], store := [] }
      "Mint11111111111111111111111111111111111111"
      { price := 2, liquidity := 10, priceChangePercent := 100,
        live := false }
      { baseMint := "Mint11111111111111111111111111111111111111",
        lpAddress := none, amountInSol := 1/10, buyTimestamp := 0,
        signature := "sig", tokenAmount := 1000, isDryRun := true,
        buyPrice := 1 }).2.realSend = false :=
  (C2_dry_run_purity _
    { volDraw := 0, dirDraw := 0, trendDraw := 0, liqDraw := 0,
      moveDraw := 0, connectionThrow := none } _ _ [] 0
    "Mint11111111111111111111111111111111111111" none _ _ rfl).2

/-- Claim C4: the token filter fails closed: when the security check's
external call throws, or when the pool-liquidity check's external call
throws (that call is made exactly for SOL-quoted pools), the candidate is
rejected and no `BuyCandidate` is emitted — an external-call failure is
never treated as a pass. -/
theorem C4_filter_fail_closed (cfg : Config) (env : FilterEnv)
    (poolData : PoolData) (now : ℕ) (message : String) :
    (env.getMintAccount poolData.baseMint = .err message →
      (filterToken cfg env poolData).1 = false ∧
      processNewPool cfg env poolData now = none) ∧
    (poolData.quoteMint = SOL_MINT →
      env.getBalance poolData.lpAddress = .err message →
      (filterToken cfg env poolData).1 = false ∧
      processNewPool cfg env poolData now = none) := by
  constructor
  · intro h
    have hsec : (checkTokenSecurity env poolData.baseMint).valid = false := by
      simp [checkTokenSecurity, h]
    have hft : (filterToken cfg env poolData).1 = false := by
      unfold filterToken
      split_ifs with h1 h2
      · rfl
      · rfl
      · simp [hsec]
    exact ⟨hft, by simp [processNewPool, hft]⟩
  · intro hq hb
    have hliq : (checkPoolLiquidity cfg env poolData.lpAddress
        poolData.quoteMint).valid = false := by
      unfold checkPoolLiquidity
      rw [if_pos (by simp [hq])]
      rw [hb]
    have hft : (filterToken cfg env poolData).1 = false := by
      unfold filterToken
      split_ifs with h1 h2
      · rfl
      · rfl
      · by_cases hsec2 : (checkTokenSecurity env poolData.baseMint).valid
        · simp [hsec2, hliq]
        · simp [hsec2]
    exact ⟨hft, by simp [processNewPool, hft]⟩

/-- Witness for C4: a concrete pool whose security check throws yields no
`BuyCandidate`. -/
theorem C4_filter_fail_closed_witness :
    processNewPool
      { DRY_RUN := true, DRY_RUN_SUCCESS_RATE := 100,
        DRY_RUN_CONFIRMATION_MS := 2000, DRY_RUN_PRICE_VOLATILITY := 30,
        BUY_AMOUNT_SOL := 1/10, SLIPPAGE_TOLERANCE_BPS := 100,
        TAKE_PROFIT_PERCENTAGE := 50, STOP_LOSS_PERCENTAGE := 30,
        MIN_POOL_SIZE_SOL := 5, SIMULATE_TRANSACTIONS := false,
        RAYDIUM_LP_V4_PROGRAM_ID := "675kPX9MHTjS2zt1qfr1NYHuzeLXfQM9H24wFSUt1Mp8" }
      { publicKeyParses := fun _ => true,
        getMintAccount := fun _ => .err "RPC timeout",
        getBalance := fun _ => .ok 100000000000,
        getMetadata := fun _ => none }
      { baseMint := "Mint11111111111111111111111111111111111111",
        quoteMint := "So11111111111111111111111111111111111111112",
        lpAddress := "Lp111111111111111111111111111111111111111A" }
      0 = none :=
  ((C4_filter_fail_closed _ _ _ 0 "RPC timeout").1 rfl).2

/-- Claim C7 (code evaluation): the swap instruction the buy executor
builds carries the constant dummy minimum-output bound `1`, not a bound
derived from `expectedOutput * (1 - slippageToleranceBps / 10000)`; that
formula is only applied by the sell manager when it builds a sell
(`minSolAmount = expectedSolAmount * (1 - SLIPPAGE_TOLERANCE_BPS /
10000)`).  Under the claimed formula a slippage tolerance of 10000 bps
would force a zero bound, while the built buy instruction's bound stays
`1`. -/
theorem C7_buy_min_out_is_dummy (cfg : Config) (tokenAmount : ℕ)
    (price : ℚ) :
    (buySwapInstructionArgs cfg).minAmountOut = 1 ∧
    (buySwapInstructionArgs cfg).amountIn =
      cfg.BUY_AMOUNT_SOL * LAMPORTS_PER_SOL ∧
    sellMinSolAmount cfg tokenAmount price =
      (tokenAmount : ℚ) * price * (1 - cfg.SLIPPAGE_TOLERANCE_BPS / 10000) ∧
    ∀ expectedOutput : ℚ,
      expectedOutput * (1 - (10000 : ℚ) / 10000) = 0 := by
  refine ⟨rfl, rfl, rfl, ?_⟩
  intro expectedOutput
  norm_num

/-- Claim C9: `filterToken` evaluates its predicates in the fixed order
address validity → known-token check → security check → liquidity check,
short-circuits at the first failing predicate (the trace stops there and
later predicates never run), and `processNewPool` emits a `BuyCandidate`
exactly when every predicate passes. -/
theorem C9_filter_order_and_emission (cfg : Config) (env : FilterEnv)
    (poolData : PoolData) (now : ℕ) :
    ((filterToken cfg env poolData).1 =
      ((isValidSolanaAddress env poolData.baseMint &&
        isValidSolanaAddress env poolData.quoteMint &&
        isValidSolanaAddress env poolData.lpAddress) &&
       !(knownTokenName poolData.baseMint).isSome &&
       (checkTokenSecurity env poolData.baseMint).valid &&
       (checkPoolLiquidity cfg env poolData.lpAddress
         poolData.quoteMint).valid)) ∧
    ((isValidSolanaAddress env poolData.baseMint &&
      isValidSolanaAddress env poolData.quoteMint &&
      isValidSolanaAddress env poolData.lpAddress) = false →
      (filterToken cfg env poolData).2 = [.addressValidity]) ∧
    ((isValidSolanaAddress env poolData.baseMint &&
      isValidSolanaAddress env poolData.quoteMint &&
      isValidSolanaAddress env poolData.lpAddress) = true →
      (knownTokenName poolData.baseMint).isSome = true →
      (filterToken cfg env poolData).2 =
        [.addressValidity, .knownTokenCheck]) ∧
    ((isValidSolanaAddress env poolData.baseMint &&
      isValidSolanaAddress env poolData.quoteMint &&
      isValidSolanaAddress env poolData.lpAddress) = true →
      (knownTokenName poolData.baseMint).isSome = false →
      (checkTokenSecurity env poolData.baseMint).valid = false →
      (filterToken cfg env poolData).2 =
        [.addressValidity, .knownTokenCheck, .securityCheck]) ∧
    ((isValidSolanaAddress env poolData.baseMint &&
      isValidSolanaAddress env poolData.quoteMint &&
      isValidSolanaAddress env poolData.lpAddress) = true →
      (knownTokenName poolData.baseMint).isSome = false →
      (checkTokenSecurity env poolData.baseMint).valid = true →
      (filterToken cfg env poolData).2 =
        [.addressValidity, .knownTokenCheck, .securityCheck,
         .liquidityCheck]) ∧
    ((processNewPool cfg env poolData now).isSome =
      (filterToken cfg env poolData).1) := by
  refine ⟨?_, ?_, ?_, ?_, ?_, ?_⟩
  · cases haddr : (isValidSolanaAddress env poolData.baseMint &&
        isValidSolanaAddress env poolData.quoteMint &&
        isValidSolanaAddress env poolData.lpAddress) with
    | false => simp [filterToken, haddr]
    | true =>
      cases hknown : (knownTokenName poolData.baseMint).isSome with
      | true => simp [filterToken, haddr, hknown]
      | false =>
        cases hsec : (checkTokenSecurity env poolData.baseMint).valid with
        | false => simp [filterToken, haddr, hknown, hsec]
        | true =>
          cases hliq : (checkPoolLiquidity cfg env poolData.lpAddress
              poolData.quoteMint).valid with
          | false => simp [filterToken, haddr, hknown, hsec, hliq]
          | true => simp [filterToken, haddr, hknown, hsec, hliq]
  · intro haddr
    simp [filterToken, haddr]
  · intro haddr hknown
    simp [filterToken, haddr, hknown]
  · intro haddr hknown hsec
    simp [filterToken, haddr, hknown, hsec]
  · intro haddr hknown hsec
    cases hliq : (checkPoolLiquidity cfg env poolData.lpAddress
        poolData.quoteMint).valid with
    | false => simp [filterToken, haddr, hknown, hsec, hliq]
    | true => simp [filterToken, haddr, hknown, hsec, hliq]
  · cases hft : (filterToken cfg env poolData).1 with
    | false => simp [processNewPool, hft]
    | true => simp [processNewPool, hft]

/-- Witness for C9 at a concrete pool: valid fresh addresses whose
security check fails stop the trace right after the security predicate. -/
theorem C9_filter_order_and_emission_witness :
    (filterToken
      { DRY_RUN := true, DRY_RUN_SUCCESS_RATE := 100,
        DRY_RUN_CONFIRMATION_MS := 2000, DRY_RUN_PRICE_VOLATILITY := 30,
        BUY_AMOUNT_SOL := 1/10, SLIPPAGE_TOLERANCE_BPS := 100,
        TAKE_PROFIT_PERCENTAGE := 50, STOP_LOSS_PERCENTAGE := 30,
        MIN_POOL_SIZE_SOL := 5, SIMULATE_TRANSACTIONS := false,
        RAYDIUM_LP_V4_PROGRAM_ID := "675kPX9MHTjS2zt1qfr1NYHuzeLXfQM9H24wFSUt1Mp8" }
      { publicKeyParses := fun _ => true,
        getMintAccount := fun _ => .ok none,
        getBalance := fun _ => .ok 100000000000,
        getMetadata := fun _ => none }
      { baseMint := "Mint11111111111111111111111111111111111111",
        quoteMint := "So11111111111111111111111111111111111111112",
        lpAddress := "Lp111111111111111111111111111111111111111A" }).2 =
      [.addressValidity, .knownTokenCheck, .securityCheck] :=
  (C9_filter_order_and_emission _ _ _ 0).2.2.2.1 (by decide) (by decide)
    (by decide)

/-- Claim C6 counterexample: a successful `Initialize2` log entry without
the labelled `base mint:` / `quote mint:` / `pool address:` lines takes the
partial-detection fallback and emits a `PoolDetected` whose `baseMint` is
the placeholder `unknown`, which is not a parseable chain address — so an
entry with an unparseable address is not always discarded. -/
theorem C6_unknown_emission_counterexample :
    handleLogNotification
      { DRY_RUN := true, DRY_RUN_SUCCESS_RATE := 100,
        DRY_RUN_CONFIRMATION_MS := 2000, DRY_RUN_PRICE_VOLATILITY := 30,
        BUY_AMOUNT_SOL := 1/10, SLIPPAGE_TOLERANCE_BPS := 100,
        TAKE_PROFIT_PERCENTAGE := 50, STOP_LOSS_PERCENTAGE := 30,
        MIN_POOL_SIZE_SOL := 5, SIMULATE_TRANSACTIONS := false,
        RAYDIUM_LP_V4_PROGRAM_ID := "675kPX9MHTjS2zt1qfr1NYHuzeLXfQM9H24wFSUt1Mp8" }
      { publicKeyParses := matchesSolanaAddressPattern }
      0
      (some { logs := ["Program log: Instruction: Initialize2"],
              signature := some "5TxSig",
              err := none,
              logMessages :=
                ["675kPX9MHTjS2zt1qfr1NYHuzeLXfQM9H24wFSUt1Mp8 invoke"] }) =
      some { baseMint := "unknown", quoteMint := "unknown",
             lpAddress := "675kPX9MHTjS2zt1qfr1NYHuzeLXfQM9H24wFSUt1Mp8",
             detectionMethod := some "partial", timestamp := none } ∧
    matchesSolanaAddressPattern "unknown" = false := by
  constructor
  · rfl
  · decide

/-- Claim C6 (amended): when all three addresses are extracted from the
labelled log lines, any address the chain cannot parse makes the detector
discard the entry; every `log_parse` emission carries three validated
addresses, and every emission is either `log_parse` or the unvalidated
`partial` fallback (at most one `PoolDetected` per processed entry, the
emission being `Option`-valued). -/
theorem C6_parse_validation_amended (env : LpEnv) (now : ℕ)
    (logRecord : LogRecord) :
    (truthy (extractedFields logRecord).baseMint = true →
     truthy (extractedFields logRecord).quoteMint = true →
     truthy (extractedFields logRecord).lpAddress = true →
     (env.publicKeyParses (orDefault (extractedFields logRecord).baseMint "") &&
      env.publicKeyParses (orDefault (extractedFields logRecord).quoteMint "") &&
      env.publicKeyParses (orDefault (extractedFields logRecord).lpAddress ""))
       = false →
     parseRaydiumLpLogs env now logRecord = none) ∧
    (∀ pd, parseRaydiumLpLogs env now logRecord = some pd →
      pd.detectionMethod = some "log_parse" →
      env.publicKeyParses pd.baseMint = true ∧
      env.publicKeyParses pd.quoteMint = true ∧
      env.publicKeyParses pd.lpAddress = true) ∧
    (∀ pd, parseRaydiumLpLogs env now logRecord = some pd →
      pd.detectionMethod = some "log_parse" ∨
      pd.detectionMethod = some "partial") := by
  refine ⟨?_, ?_, ?_⟩
  · intro hb hq hl hval
    unfold parseRaydiumLpLogs
    split
    · rfl
    · split
      · rfl
      · rw [if_neg (by simp [hb, hq, hl])]
        rw [if_neg (by simp [hval])]
  · intro pd hpd hmethod
    unfold parseRaydiumLpLogs at hpd
    split at hpd
    · cases hpd
    · split at hpd
      · cases hpd
      · split at hpd
        · split at hpd
          · split at hpd
            · cases hpd
              simp at hmethod
            · cases hpd
          · cases hpd
        · split at hpd
          · rename_i hval
            cases hpd
            simp only [Bool.and_eq_true] at hval
            exact ⟨hval.1.1, hval.1.2, hval.2⟩
          · cases hpd
  · intro pd hpd
    unfold parseRaydiumLpLogs at hpd
    split at hpd
    · cases hpd
    · split at hpd
      · cases hpd
      · split at hpd
        · split at hpd
          · split at hpd
            · cases hpd
              right
              rfl
            · cases hpd
          · cases hpd
        · split at hpd
          · cases hpd
            left
            rfl
          · cases hpd

/-- Witness for C6 (amended) at a concrete fully-labelled entry with an
invalid base mint: the detector discards the entry. -/
theorem C6_parse_validation_amended_witness :
    parseRaydiumLpLogs
      { publicKeyParses := matchesSolanaAddressPattern } 0
      { logs := ["Program log: Instruction: Initialize2",
                 "Program log: base mint: bad!",
                 "Program log: quote mint: So11111111111111111111111111111111111111112",
                 "Program log: pool address: Lp111111111111111111111111111111111111111A"],
        signature := some "5TxSig",
        err := none,
        logMessages := [] } = none :=
  (C6_parse_validation_amended
    { publicKeyParses := matchesSolanaAddressPattern } 0
    { logs := ["Program log: Instruction: Initialize2",
               "Program log: base mint: bad!",
               "Program log: quote mint: So11111111111111111111111111111111111111112",
               "Program log: pool address: Lp111111111111111111111111111111111111111A"],
      signature := some "5TxSig",
      err := none,
      logMessages := [] }).1 (by decide) (by decide) (by decide) (by decide)

theorem executeSwap_store_shape (cfg : Config) (env : BuyEnv) (now : ℕ)
    (st : BuyState) (tokenData : TokenData) :
    (executeSwap cfg env now st tokenData).1.store = st.store ∨
    ∃ record, (executeSwap cfg env now st tokenData).1.store =
      setKey st.store (positionKey tokenData.baseMint) record := by
  unfold executeSwap
  split
  · split
    · right
      exact ⟨dryRunPositionRecord cfg env now tokenData, rfl⟩
    · left
      rfl
  · split
    · left
      rfl
    · split
      · left
        rfl
      · split
        · left
          rfl
        · right
          exact ⟨livePositionRecord cfg env now tokenData, rfl⟩

theorem nodup_keys_processPotentialBuy (cfg : Config) (env : BuyEnv)
    (now : ℕ) (st : BuyState) (tokenData : TokenData)
    (h : (st.store.map Prod.fst).Nodup) :
    ((processPotentialBuy cfg env now st tokenData).store.map Prod.fst).Nodup := by
  unfold processPotentialBuy
  split
  · exact h
  · rcases executeSwap_store_shape cfg env now st tokenData with hs | ⟨record, hs⟩
    · rw [hs]
      exact h
    · rw [hs]
      exact nodup_keys_setKey record h

theorem nodup_keys_processBuyMessages (cfg : Config) (now : ℕ) :
    ∀ (messages : List (TokenData × BuyEnv)) (st : BuyState),
      (st.store.map Prod.fst).Nodup →
      ((processBuyMessages cfg now messages st).store.map Prod.fst).Nodup := by
  intro messages
  induction messages with
  | nil => intro st h; exact h
  | cons head tail ih =>
    intro st h
    unfold processBuyMessages
    rw [List.foldl_cons]
    exact ih (processPotentialBuy cfg head.2 now st head.1)
      (nodup_keys_processPotentialBuy cfg head.2 now st head.1 h)

theorem sent_processBuyMessages (cfg : Config) (now : ℕ)
    (hdry : cfg.DRY_RUN = false) :
    ∀ (messages : List (TokenData × BuyEnv)) (st : BuyState),
      (∀ m ∈ messages, m.1.quoteMint = SOL_MINT ∧ m.2.preSendThrow = none ∧
        (cfg.SIMULATE_TRANSACTIONS && m.2.preflightSimError.isSome) = false) →
      (processBuyMessages cfg now messages st).sentTransactions =
        st.sentTransactions + messages.length := by
  intro messages
  induction messages with
  | nil => intro st _; rfl
  | cons head tail ih =>
    intro st hall
    obtain ⟨hq, hthrow, hsim⟩ := hall head (List.mem_cons_self head tail)
    have hstep : (processPotentialBuy cfg head.2 now st head.1).sentTransactions
        = st.sentTransactions + 1 := by
      unfold processPotentialBuy
      rw [if_neg (by simp [hq])]
      unfold executeSwap
      rw [if_neg (by simp [hdry])]
      rw [hthrow]
      rw [if_neg (by simp [hsim])]
      cases head.2.confirmErr <;> rfl
    unfold processBuyMessages
    rw [List.foldl_cons]
    have := ih (processPotentialBuy cfg head.2 now st head.1)
      (fun m hm => hall m (List.mem_cons_of_mem head hm))
    unfold processBuyMessages at this
    rw [this, hstep]
    simp only [List.length_cons]
    omega

/-- Claim C1 counterexample: in live mode, two identical SOL-pair
deliveries for the same `baseMint` (each with a clean confirmation) make
the buy executor send two purchase transactions — the second delivery is
processed as a fresh buy, not accepted as a no-op, even though a Position
for that `baseMint` already exists after the first.  (The keyed store
still ends up with a single overwritten record.) -/
theorem C1_duplicate_buy_counterexample :
    (processBuyMessages
      { DRY_RUN := false, DRY_RUN_SUCCESS_RATE := 100,
        DRY_RUN_CONFIRMATION_MS := 2000, DRY_RUN_PRICE_VOLATILITY := 30,
        BUY_AMOUNT_SOL := 1/10, SLIPPAGE_TOLERANCE_BPS := 100,
        TAKE_PROFIT_PERCENTAGE := 50, STOP_LOSS_PERCENTAGE := 30,
        MIN_POOL_SIZE_SOL := 5, SIMULATE_TRANSACTIONS := false,
        RAYDIUM_LP_V4_PROGRAM_ID := "675kPX9MHTjS2zt1qfr1NYHuzeLXfQM9H24wFSUt1Mp8" }
      0
      [({ baseMint := "Mint11111111111111111111111111111111111111",
          quoteMint := "So11111111111111111111111111111111111111112",
          lpAddress := "Lp111111111111111111111111111111111111111A" },
        { simSignature := "s", successDraw := 0, simTokenAmount := 500000,
          preSendThrow := none, preflightSimError := none,
          liveSignature := "live1", confirmErr := none }),
       ({ baseMint := "Mint11111111111111111111111111111111111111",
          quoteMint := "So11111111111111111111111111111111111111112",
          lpAddress := "Lp111111111111111111111111111111111111111A" },
        { simSignature := "s", successDraw := 0, simTokenAmount := 500000,
          preSendThrow := none, preflightSimError := none,
          liveSignature := "live2", confirmErr := none })]
      {}).sentTransactions = 2 ∧
    ¬((processBuyMessages
      { DRY_RUN := false, DRY_RUN_SUCCESS_RATE := 100,
        DRY_RUN_CONFIRMATION_MS := 2000, DRY_RUN_PRICE_VOLATILITY := 30,
        BUY_AMOUNT_SOL := 1/10, SLIPPAGE_TOLERANCE_BPS := 100,
        TAKE_PROFIT_PERCENTAGE := 50, STOP_LOSS_PERCENTAGE := 30,
        MIN_POOL_SIZE_SOL := 5, SIMULATE_TRANSACTIONS := false,
        RAYDIUM_LP_V4_PROGRAM_ID := "675kPX9MHTjS2zt1qfr1NYHuzeLXfQM9H24wFSUt1Mp8" }
      0
      [({ baseMint := "Mint11111111111111111111111111111111111111",
          quoteMint := "So11111111111111111111111111111111111111112",
          lpAddress := "Lp111111111111111111111111111111111111111A" },
        { simSignature := "s", successDraw := 0, simTokenAmount := 500000,
          preSendThrow := none, preflightSimError := none,
          liveSignature := "live1", confirmErr := none }),
       ({ baseMint := "Mint11111111111111111111111111111111111111",
          quoteMint := "So11111111111111111111111111111111111111112",
          lpAddress := "Lp111111111111111111111111111111111111111A" },
        { simSignature := "s", successDraw := 0, simTokenAmount := 500000,
          preSendThrow := none, preflightSimError := none,
          liveSignature := "live2", confirmErr := none })]
      {}).sentTransactions ≤ 1) := by
  constructor
  · rfl
  · decide

/-- Claim C1 (amended): because the durable store is keyed by `baseMint`
(`hset` overwrites), at most one Position record ever exists per
`baseMint`; but the executor performs no duplicate check, so every
delivery of a SOL-pair candidate that passes the pre-send steps submits
its own purchase transaction — duplicate deliveries are each executed as
fresh purchases rather than accepted as no-ops. -/
theorem C1_at_most_one_record_but_duplicate_sends (cfg : Config) (now : ℕ)
    (messages : List (TokenData × BuyEnv)) (baseMint : String) :
    countKey (processBuyMessages cfg now messages {}).store
      (positionKey baseMint) ≤ 1 ∧
    (cfg.DRY_RUN = false →
      (∀ m ∈ messages, m.1.quoteMint = SOL_MINT ∧ m.2.preSendThrow = none ∧
        (cfg.SIMULATE_TRANSACTIONS && m.2.preflightSimError.isSome) = false) →
      (processBuyMessages cfg now messages {}).sentTransactions =
        messages.length) := by
  constructor
  · exact countKey_le_one_of_nodup
      (nodup_keys_processBuyMessages cfg now messages {} (by simp)) _
  · intro hdry hall
    have := sent_processBuyMessages cfg now hdry messages {} hall
    simpa using this

/-- Witness for C1 (amended) on two duplicate deliveries in live mode:
both are sent. -/
theorem C1_at_most_one_record_but_duplicate_sends_witness :
    (processBuyMessages
      { DRY_RUN := false, DRY_RUN_SUCCESS_RATE := 100,
        DRY_RUN_CONFIRMATION_MS := 2000, DRY_RUN_PRICE_VOLATILITY := 30,
        BUY_AMOUNT_SOL := 1/10, SLIPPAGE_TOLERANCE_BPS := 100,
        TAKE_PROFIT_PERCENTAGE := 50, STOP_LOSS_PERCENTAGE := 30,
        MIN_POOL_SIZE_SOL := 5, SIMULATE_TRANSACTIONS := false,
        RAYDIUM_LP_V4_PROGRAM_ID := "675kPX9MHTjS2zt1qfr1NYHuzeLXfQM9H24wFSUt1Mp8" }
      0
      [({ baseMint := "Other1111111111111111111111111111111111111",
          quoteMint := "So11111111111111111111111111111111111111112",
          lpAddress := "Lp111111111111111111111111111111111111111A" },
        { simSignature := "s", successDraw := 0, simTokenAmount := 500000,
          preSendThrow := none, preflightSimError := none,
          liveSignature := "liveA", confirmErr := none }),
       ({ baseMint := "Other1111111111111111111111111111111111111",
          quoteMint := "So11111111111111111111111111111111111111112",
          lpAddress := "Lp111111111111111111111111111111111111111A" },
        { simSignature := "s", successDraw := 0, simTokenAmount := 500000,
          preSendThrow := none, preflightSimError := none,
          liveSignature := "liveB", confirmErr := none })]
      {}).sentTransactions = 2 :=
  (C1_at_most_one_record_but_duplicate_sends _ 0 _
    "Other1111111111111111111111111111111111111").2 rfl (by decide)

theorem load_foldl_append :
    ∀ (store : List (String × StoredPosition))
      (acc : List (String × Position)),
      (∀ e ∈ store, e.2.baseMint ≠ "") →
      (∀ e ∈ store, e.2.baseMint ∉ acc.map Prod.fst) →
      (store.map (fun e => e.2.baseMint)).Nodup →
      store.foldl
        (fun acc entry =>
          if entry.2.baseMint == "" then acc
          else setKey acc entry.2.baseMint (decodeStoredPosition entry.2))
        acc =
      acc ++ store.map (fun e => (e.2.baseMint, decodeStoredPosition e.2)) := by
  intro store
  induction store with
  | nil => intro acc _ _ _; simp
  | cons e rest ih =>
    intro acc hne hfresh hnd
    rw [List.foldl_cons]
    have hne0 : e.2.baseMint ≠ "" := hne e (List.mem_cons_self e rest)
    rw [if_neg (by simpa using hne0)]
    have hset : setKey acc e.2.baseMint (decodeStoredPosition e.2) =
        acc ++ [(e.2.baseMint, decodeStoredPosition e.2)] := by
      apply setKey_of_forall_ne
      intro p hp hpk
      exact hfresh e (List.mem_cons_self e rest)
        (List.mem_map.mpr ⟨p, hp, hpk⟩)
    rw [hset]
    rw [List.map_cons, List.nodup_cons] at hnd
    have := ih (acc ++ [(e.2.baseMint, decodeStoredPosition e.2)])
      (fun e' he' => hne e' (List.mem_cons_of_mem e he'))
      (by
        intro e' he'
        rw [List.map_append]
        intro hc
        rcases List.mem_append.mp hc with hc1 | hc2
        · exact hfresh e' (List.mem_cons_of_mem e he') hc1
        · simp only [List.map_cons, List.map_nil,
            List.mem_singleton] at hc2
          exact hnd.1 (hc2 ▸ List.mem_map.mpr ⟨e', he', rfl⟩))
      hnd.2
    rw [this, List.map_cons]
    simp

theorem loadPositions_eq_map (store : List (String × StoredPosition))
    (hne : ∀ e ∈ store, e.2.baseMint ≠ "")
    (hnd : (store.map (fun e => e.2.baseMint)).Nodup) :
    loadPositionsFromRedis store =
      store.map (fun e => (e.2.baseMint, decodeStoredPosition e.2)) := by
  unfold loadPositionsFromRedis
  have := load_foldl_append store [] hne (by simp) hnd
  simpa using this

/-- Claim C5: a fresh start followed by the recovery load reconstructs
exactly the persisted open positions: for a durable store of N well-formed
entries with pairwise-distinct `baseMint`s, the working set after
`loadPositionsFromRedis` holds exactly N positions, each recoverable by
its `baseMint` with `buyPrice`, `tokenAmount` and `isDryRun` equal to the
values persisted at open time (the decode inverts the `hset` write,
including the boolean round trip through the string encoding the buy
executor uses). -/
theorem C5_restart_recovery (store : List (String × StoredPosition))
    (hne : ∀ e ∈ store, e.2.baseMint ≠ "")
    (hnd : (store.map (fun e => e.2.baseMint)).Nodup) :
    (loadPositionsFromRedis store).length = store.length ∧
    (∀ e ∈ store,
      getKey (loadPositionsFromRedis store) e.2.baseMint =
        some (decodeStoredPosition e.2)) ∧
    (∀ d : StoredPosition,
      (decodeStoredPosition d).buyPrice = d.buyPrice ∧
      (decodeStoredPosition d).tokenAmount = d.tokenAmount ∧
      (decodeStoredPosition d).isDryRun = decodeIsDryRun d.isDryRun) ∧
    (∀ b : Bool, decodeIsDryRun (encodeBool b) = b) ∧
    (∀ (cfg : Config) (env : BuyEnv) (now : ℕ) (td : TokenData),
      (dryRunPositionRecord cfg env now td).isDryRun = encodeBool true ∧
      (livePositionRecord cfg env now td).isDryRun = encodeBool false) := by
  have hload := loadPositions_eq_map store hne hnd
  refine ⟨?_, ?_, ?_, ?_, ?_⟩
  · rw [hload, List.length_map]
  · intro e he
    rw [hload]
    apply getKey_of_mem_nodup
    · rw [List.map_map]
      exact hnd
    · exact List.mem_map.mpr ⟨e, he, rfl⟩
  · intro d
    exact ⟨rfl, rfl, rfl⟩
  · intro b
    cases b <;> rfl
  · intro cfg env now td
    exact ⟨rfl, rfl⟩

/-- Witness for C5 on a concrete two-entry store: both positions are
recovered with their persisted fields. -/
theorem C5_restart_recovery_witness :
    (loadPositionsFromRedis
      [("positions:MintA111111111111111111111111111111111111",
        { baseMint := "MintA111111111111111111111111111111111111",
          buyPrice := 3/2, amountInSol := 1/10, tokenAmount := 500000,
          buyTimestamp := 123, signature := "sigA",
          isDryRun := encodeBool true, lpAddress := none }),
       ("positions:MintB111111111111111111111111111111111111",
        { baseMint := "MintB111111111111111111111111111111111111",
          buyPrice := 0, amountInSol := 1/10, tokenAmount := 1000000,
          buyTimestamp := 456, signature := "sigB",
          isDryRun := encodeBool false, lpAddress := none })]).length = 2 :=
  (C5_restart_recovery
    [("positions:MintA111111111111111111111111111111111111",
      { baseMint := "MintA111111111111111111111111111111111111",
        buyPrice := 3/2, amountInSol := 1/10, tokenAmount := 500000,
        buyTimestamp := 123, signature := "sigA",
        isDryRun := encodeBool true, lpAddress := none }),
     ("positions:MintB111111111111111111111111111111111111",
      { baseMint := "MintB111111111111111111111111111111111111",
        buyPrice := 0, amountInSol := 1/10, tokenAmount := 1000000,
        buyTimestamp := 456, signature := "sigB",
        isDryRun := encodeBool false, lpAddress := none })]
    (by decide) (by decide)).1

theorem executeSell_success_eq (cfg : Config) (env : SellEnv)
    (st : SellState) (bm : String) (pd : PriceData) (pos : Position) :
    (executeSellTransaction cfg env st bm pd pos).2.success =
      sellTxSucceeds cfg env pos := by
  unfold executeSellTransaction sellTxSucceeds
  by_cases hdry : (pos.isDryRun || cfg.DRY_RUN) = true
  · rw [if_pos hdry, if_pos hdry]
    by_cases hs : env.successDraw < cfg.DRY_RUN_SUCCESS_RATE
    · rw [if_pos hs]
      simp [hs]
    · rw [if_neg hs]
      simp [hs]
  · rw [if_neg hdry, if_neg hdry]
    cases env.connectionThrow with
    | some m => rfl
    | none =>
      cases env.getTokenAccount with
      | err m => rfl
      | ok tokenAmount =>
        by_cases hta : (tokenAmount == 0) = true
        · simp [hta]
        · by_cases hsim : (cfg.SIMULATE_TRANSACTIONS &&
              env.preflightSimError.isSome) = true
          · simp [hta, hsim]
          · cases env.confirmErr with
            | some m => simp [hta, hsim]
            | none => simp [hta, hsim]

theorem executeSell_shape (cfg : Config) (env : SellEnv) (st : SellState)
    (bm : String) (pd : PriceData) (pos : Position) :
    ((executeSellTransaction cfg env st bm pd pos).1 = st ∧
     (executeSellTransaction cfg env st bm pd pos).2.success = false) ∨
    ((executeSellTransaction cfg env st bm pd pos).1.active = st.active ∧
     (executeSellTransaction cfg env st bm pd pos).1.store =
       delKey st.store (positionKey bm) ∧
     (executeSellTransaction cfg env st bm pd pos).2.success = true) := by
  unfold executeSellTransaction
  by_cases hdry : (pos.isDryRun || cfg.DRY_RUN) = true
  · rw [if_pos hdry]
    by_cases hs : env.successDraw < cfg.DRY_RUN_SUCCESS_RATE
    · rw [if_pos hs]
      right
      exact ⟨rfl, rfl, rfl⟩
    · rw [if_neg hs]
      left
      exact ⟨rfl, rfl⟩
  · rw [if_neg hdry]
    cases env.connectionThrow with
    | some m => left; exact ⟨rfl, rfl⟩
    | none =>
      cases env.getTokenAccount with
      | err m => left; exact ⟨rfl, rfl⟩
      | ok tokenAmount =>
        by_cases hta : (tokenAmount == 0) = true
        · left
          constructor
          · simp [hta]
          · simp [hta]
        · by_cases hsim : (cfg.SIMULATE_TRANSACTIONS &&
              env.preflightSimError.isSome) = true
          · left
            constructor
            · simp [hta, hsim]
            · simp [hta, hsim]
          · cases env.confirmErr with
            | some m =>
              left
              constructor
              · simp [hta, hsim]
              · simp [hta, hsim]
            | none =>
              right
              refine ⟨?_, ?_, ?_⟩
              · simp [hta, hsim]
              · simp [hta, hsim]
              · simp [hta, hsim]

theorem processPosition_shape (cfg : Config) (env : PerPositionEnv)
    (now : ℕ) (st : SellState) (bm : String) (pos : Position) :
    (processPosition cfg env now st bm pos).1 = st ∨
    ((processPosition cfg env now st bm pos).1.active =
       delKey st.active bm ∧
     (processPosition cfg env now st bm pos).1.store =
       delKey st.store (positionKey bm)) := by
  unfold processPosition
  split
  · left
    rfl
  · rename_i priceData heq
    split
    · split
      · rename_i hss hsucc
        rcases executeSell_shape cfg env.sell st bm priceData pos with
          ⟨h1, h2⟩ | ⟨h1, h2, h3⟩
        · rw [h2] at hsucc
          cases hsucc
        · right
          constructor
          · show delKey (executeSellTransaction cfg env.sell st bm priceData
              pos).1.active bm = delKey st.active bm
            rw [h1]
          · show (executeSellTransaction cfg env.sell st bm priceData
              pos).1.store = delKey st.store (positionKey bm)
            rw [h2]
      · rename_i hss hsucc
        rcases executeSell_shape cfg env.sell st bm priceData pos with
          ⟨h1, h2⟩ | ⟨h1, h2, h3⟩
        · left
          exact h1
        · exact absurd h3 (by simpa using hsucc)
    · left
      rfl

theorem processPosition_not_succ (cfg : Config) (env : PerPositionEnv)
    (now : ℕ) (st : SellState) (bm : String) (pos : Position)
    (hlook : getKey st.active bm = some pos)
    (hfail : tickSellSucceeds cfg env now pos = false) :
    (processPosition cfg env now st bm pos).1 = st := by
  have hcalc : calculateTokenPrice cfg env.price st.active now bm
      pos.lpAddress pos.isDryRun =
      calcPriceForPosition cfg env.price now pos pos.isDryRun := by
    unfold calculateTokenPrice
    rw [hlook]
  unfold processPosition
  rw [hcalc]
  unfold tickSellSucceeds at hfail
  cases hp : calcPriceForPosition cfg env.price now pos pos.isDryRun with
  | none => rfl
  | some pd =>
    rw [hp] at hfail
    by_cases hss : (evaluateSellConditions cfg pd pos).shouldSell = true
    · have hsell : sellTxSucceeds cfg env.sell pos = false := by
        cases hx : sellTxSucceeds cfg env.sell pos
        · rfl
        · simp [hss, hx] at hfail
      have hsucc := executeSell_success_eq cfg env.sell st bm pd pos
      rw [hsell] at hsucc
      rcases executeSell_shape cfg env.sell st bm pd pos with
        ⟨h1, h2⟩ | ⟨h1, h2, h3⟩
      · simp [hss, hsucc, h1]
      · rw [hsucc] at h3
        cases h3
    · simp [hss]

theorem tick_fold_frame (cfg : Config) (env : String → PerPositionEnv)
    (now : ℕ) (bm : String) (pos : Position) :
    ∀ (entries : List (String × Position)) (acc : SellState),
      bm ∉ entries.map Prod.fst →
      (((bm, pos) ∈ acc.active →
        (bm, pos) ∈ (entries.foldl
          (fun a e => (processPosition cfg (env e.1) now a e.1 e.2).1)
          acc).active) ∧
       getKey (entries.foldl
         (fun a e => (processPosition cfg (env e.1) now a e.1 e.2).1)
         acc).active bm = getKey acc.active bm ∧
       getKey (entries.foldl
         (fun a e => (processPosition cfg (env e.1) now a e.1 e.2).1)
         acc).store (positionKey bm) =
         getKey acc.store (positionKey bm)) := by
  intro entries
  induction entries with
  | nil => intro acc _; exact ⟨id, rfl, rfl⟩
  | cons e rest ih =>
    intro acc hbm
    have hne : bm ≠ e.1 := by
      intro hc
      apply hbm
      rw [List.map_cons]
      exact hc ▸ List.mem_cons_self _ _
    have hrest : bm ∉ rest.map Prod.fst := by
      intro hc
      apply hbm
      rw [List.map_cons]
      exact List.mem_cons_of_mem _ hc
    rw [List.foldl_cons]
    obtain ⟨ihmem, ihact, ihstore⟩ :=
      ih ((processPosition cfg (env e.1) now acc e.1 e.2).1) hrest
    rcases processPosition_shape cfg (env e.1) now acc e.1 e.2 with
      hsame | ⟨hact, hstore⟩
    · refine ⟨fun hm => ihmem (by rw [hsame]; exact hm), ?_, ?_⟩
      · rw [ihact, hsame]
      · rw [ihstore, hsame]
    · refine ⟨fun hm => ihmem ?_, ?_, ?_⟩
      · rw [hact]
        exact mem_delKey_of_ne hm hne
      · rw [ihact, hact, getKey_delKey_ne hne]
      · rw [ihstore, hstore,
          getKey_delKey_ne (fun hc => hne (positionKey_injective hc))]

/-- Claim C8: a sell failure leaves the position untouched: for any open
position of the working set, if its sell attempt this tick does not
succeed (price fetch failed, no trigger, or the sell transaction failed),
the position is still in the working set after the tick — so the next tick
re-evaluates it — and its durable record is unchanged; a position leaves
the working set only through a successful sell. -/
theorem C8_sell_failure_retains_position (cfg : Config)
    (env : String → PerPositionEnv) (now : ℕ) (st : SellState)
    (bm : String) (pos : Position)
    (hnd : (st.active.map Prod.fst).Nodup)
    (hmem : (bm, pos) ∈ st.active) :
    (tickSellSucceeds cfg (env bm) now pos = false →
      ((bm, pos) ∈ (checkPositionsAndSell cfg env now st).active ∧
       getKey (checkPositionsAndSell cfg env now st).store
         (positionKey bm) = getKey st.store (positionKey bm))) ∧
    ((bm, pos) ∉ (checkPositionsAndSell cfg env now st).active →
      tickSellSucceeds cfg (env bm) now pos = true) := by
  have hmain : tickSellSucceeds cfg (env bm) now pos = false →
      ((bm, pos) ∈ (checkPositionsAndSell cfg env now st).active ∧
       getKey (checkPositionsAndSell cfg env now st).store
         (positionKey bm) = getKey st.store (positionKey bm)) := by
    intro hfail
    obtain ⟨pre, post, hsplit⟩ := List.append_of_mem hmem
    have hnd' := hnd
    rw [hsplit, List.map_append, List.map_cons, List.nodup_append] at hnd'
    obtain ⟨hndpre, hndcons, hdisj⟩ := hnd'
    have hpostk : bm ∉ post.map Prod.fst := by
      rw [List.nodup_cons] at hndcons
      exact hndcons.1
    have hprek : bm ∉ pre.map Prod.fst :=
      fun hc => (hdisj hc) (List.mem_cons_self _ _)
    have hlook0 : getKey st.active bm = some pos :=
      getKey_of_mem_nodup hnd hmem
    unfold checkPositionsAndSell
    rw [if_neg (by rw [hsplit]; simp)]
    rw [hsplit, List.foldl_append]
    obtain ⟨hmem1, hact1, hstore1⟩ :=
      tick_fold_frame cfg env now bm pos pre st hprek
    have hlook1 : getKey (pre.foldl
        (fun a e => (processPosition cfg (env e.1) now a e.1 e.2).1)
        st).active bm = some pos := by
      rw [hact1, hlook0]
    have hmem1' : (bm, pos) ∈ (pre.foldl
        (fun a e => (processPosition cfg (env e.1) now a e.1 e.2).1)
        st).active := hmem1 hmem
    rw [List.foldl_cons]
    dsimp only
    have hstep : (processPosition cfg (env bm) now
        (pre.foldl (fun a e => (processPosition cfg (env e.1) now a e.1 e.2).1) st)
        bm pos).1 =
        pre.foldl (fun a e => (processPosition cfg (env e.1) now a e.1 e.2).1) st :=
      processPosition_not_succ cfg (env bm) now _ bm pos hlook1 hfail
    rw [hstep]
    obtain ⟨hmem2, hact2, hstore2⟩ :=
      tick_fold_frame cfg env now bm pos post
        (pre.foldl (fun a e => (processPosition cfg (env e.1) now a e.1 e.2).1) st)
        hpostk
    exact ⟨hmem2 hmem1', by rw [hstore2, hstore1]⟩
  constructor
  · exact hmain
  · intro hnot
    cases hx : tickSellSucceeds cfg (env bm) now pos
    · exact absurd (hmain hx).1 hnot
    · rfl

/-- Witness for C8: a live position whose price fetch throws this tick is
retained in the working set with its durable record untouched. -/
theorem C8_sell_failure_retains_position_witness :
    ("MintA111111111111111111111111111111111111",
      ({ baseMint := "MintA111111111111111111111111111111111111",
         lpAddress := some "Lp111111111111111111111111111111111111111",
         amountInSol := 1/10, buyTimestamp := 0, signature := "sigA",
         tokenAmount := 500000, isDryRun := false,
         buyPrice := 1 } : Position)) ∈
      (checkPositionsAndSell
        { DRY_RUN := false, DRY_RUN_SUCCESS_RATE := 100,
          DRY_RUN_CONFIRMATION_MS := 2000, DRY_RUN_PRICE_VOLATILITY := 30,
          BUY_AMOUNT_SOL := 1/10, SLIPPAGE_TOLERANCE_BPS := 100,
          TAKE_PROFIT_PERCENTAGE := 50, STOP_LOSS_PERCENTAGE := 30,
          MIN_POOL_SIZE_SOL := 5, SIMULATE_TRANSACTIONS := false,
          RAYDIUM_LP_V4_PROGRAM_ID := "675kPX9MHTjS2zt1qfr1NYHuzeLXfQM9H24wFSUt1Mp8" }
        (fun _ =>
          { price :=
              { volDraw := 0, dirDraw := 0, trendDraw := 0, liqDraw := 0,
                moveDraw := 0, connectionThrow := some "RPC timeout" },
            sell :=
              { simSignature := "s", successDraw := 0,
                connectionThrow := none, getTokenAccount := .ok 500000,
                preflightSimError := none, liveSignature := "l",
                confirmErr := none } })
        0
        { active := [("MintA111111111111111111111111111111111111",
            { baseMint := "MintA111111111111111111111111111111111111",
              lpAddress := some "Lp111111111111111111111111111111111111111",
              amountInSol := 1/10, buyTimestamp := 0, signature := "sigA",
              tokenAmount := 500000, isDryRun := false,
              buyPrice := 1 })],
          store := [("positions:MintA111111111111111111111111111111111111",
            { baseMint := "MintA111111111111111111111111111111111111",
              buyPrice := 1, amountInSol := 1/10, tokenAmount := 500000,
              buyTimestamp := 0, signature := "sigA",
              isDryRun := encodeBool false, lpAddress := none })] }).active :=
  ((C8_sell_failure_retains_position
    { DRY_RUN := false, DRY_RUN_SUCCESS_RATE := 100,
      DRY_RUN_CONFIRMATION_MS := 2000, DRY_RUN_PRICE_VOLATILITY := 30,
      BUY_AMOUNT_SOL := 1/10, SLIPPAGE_TOLERANCE_BPS := 100,
      TAKE_PROFIT_PERCENTAGE := 50, STOP_LOSS_PERCENTAGE := 30,
      MIN_POOL_SIZE_SOL := 5, SIMULATE_TRANSACTIONS := false,
      RAYDIUM_LP_V4_PROGRAM_ID := "675kPX9MHTjS2zt1qfr1NYHuzeLXfQM9H24wFSUt1Mp8" }
    (fun _ =>
      { price :=
          { volDraw := 0, dirDraw := 0, trendDraw := 0, liqDraw := 0,
            moveDraw := 0, connectionThrow := some "RPC timeout" },
        sell :=
          { simSignature := "s", successDraw := 0,
            connectionThrow := none, getTokenAccount := .ok 500000,
            preflightSimError := none, liveSignature := "l",
            confirmErr := none } })
    0
    { active := [("MintA111111111111111111111111111111111111",
        { baseMint := "MintA111111111111111111111111111111111111",
          lpAddress := some "Lp111111111111111111111111111111111111111",
          amountInSol := 1/10, buyTimestamp := 0, signature := "sigA",
          tokenAmount := 500000, isDryRun := false,
          buyPrice := 1 })],
      store := [("positions:MintA111111111111111111111111111111111111",
        { baseMint := "MintA111111111111111111111111111111111111",
          buyPrice := 1, amountInSol := 1/10, tokenAmount := 500000,
          buyTimestamp := 0, signature := "sigA",
          isDryRun := encodeBool false, lpAddress := none })] }
    "MintA111111111111111111111111111111111111"
    { baseMint := "MintA111111111111111111111111111111111111",
      lpAddress := some "Lp111111111111111111111111111111111111111",
      amountInSol := 1/10, buyTimestamp := 0, signature := "sigA",
      tokenAmount := 500000, isDryRun := false,
      buyPrice := 1 }
    (by simp) (List.mem_cons_self _ _)).1 rfl).1

end KryptoBot
